import Mathlib

/-!
Shallow embedding of the `kalpna141/video_upload` repository: the cached
mongoose connection helper (`src/lib/db.ts`), the registration API route
(`src/app/api/auth/register/route.ts`), the client-side validation and
submit handlers of the register and login pages, and the ImageKit
upload-auth endpoint.  JavaScript promises are modelled by an explicit
outcome oracle, the mongoose module-level cache by an explicit state
record, and the MongoDB users collection by a list of records.
-/

namespace VideoUpload

/-! ### `src/lib/db.ts`

The module-level cache `global.mongoose = { conn, promise }`.  `H` is the
type of connection handles (`mongoose.connection`), `P` the type of
in-flight promises.  JavaScript `null` is `none`. -/

structure MongooseCache (H P : Type) where
  conn : Option H
  promise : Option P

/-- Result of one call to `connectDb`: the value returned or error thrown,
the cache state after the call, and how many times `mongoose.connect` was
initiated during the call. -/
structure ConnectDbResult (H P E : Type) where
  ret : Except E (Option H)
  st : MongooseCache H P
  connectsInitiated : Nat

/-- The function `connectDb` from `src/lib/db.ts`, lines 15-29, translated statement by
statement.  `outcome p` is the settlement of promise `p` when awaited.

* `if (cached.conn) return cached.conn;`
* `if (!cached.promise) { mongoose.connect(MONGODB_URI).then(() => mongoose.connection); }`
  — note the source never assigns the new promise to `cached.promise`;
  the call is initiated and its promise discarded, so the cache's
  `promise` field is left as it was.
* `try { cached.conn = await cached.promise; } catch { cached.promise = null; throw }`
  — when `cached.promise` is `null`, `await null` yields `null` without
  throwing, so `cached.conn` is set to `null`.
* `return cached.conn;` -/
def connectDb {H P E : Type} (outcome : P → Except E H)
    (st : MongooseCache H P) : ConnectDbResult H P E :=
  match st.conn with
  | some c => ⟨Except.ok (some c), st, 0⟩
  | none =>
    match st.promise with
    | none =>
      -- mongoose.connect is initiated, its promise dropped; await null = null
      ⟨Except.ok none, ⟨none, none⟩, 1⟩
    | some p =>
      match outcome p with
      | Except.ok h => ⟨Except.ok (some h), ⟨some h, some p⟩, 0⟩
      | Except.error e => ⟨Except.error e, ⟨st.conn, none⟩, 0⟩

/-- A fresh process: `global.mongoose` starts as `{ conn: null, promise: null }`. -/
def initCache : MongooseCache Unit Unit := ⟨none, none⟩

/-- An environment in which every awaited connection promise succeeds. -/
def okOutcome : Unit → Except Unit Unit := fun _ => Except.ok ()

/-- An environment in which every awaited connection promise rejects. -/
def failOutcome : Unit → Except Unit Unit := fun _ => Except.error ()

/-- C1: `connectDb` does NOT store the in-flight promise in the cache:
starting from a fresh process, the first call initiates a connection but
leaves `cached.promise` as `null` and returns `null` rather than a
connection handle, and the second call initiates a connection again
instead of reusing a cached one.  (The source drops the result of
`mongoose.connect(...).then(...)` instead of assigning it to
`cached.promise`.) -/
theorem connectDb_never_caches_promise :
    (connectDb okOutcome initCache).st.promise = none ∧
    (connectDb okOutcome initCache).st.conn = none ∧
    (connectDb okOutcome initCache).ret = Except.ok none ∧
    (connectDb okOutcome initCache).connectsInitiated = 1 ∧
    (connectDb okOutcome (connectDb okOutcome initCache).st).connectsInitiated = 1 :=
  ⟨rfl, rfl, rfl, rfl, rfl⟩

/-- C4: a single call to `connectDb` initiates at most one connection
attempt, and when awaiting the cached promise fails, the cached promise is
reset to `null` and the error is rethrown to the caller. -/
theorem connectDb_at_most_one_attempt {H P E : Type}
    (outcome : P → Except E H) (st : MongooseCache H P) :
    (connectDb outcome st).connectsInitiated ≤ 1 ∧
    (∀ p e, st.conn = none → st.promise = some p → outcome p = Except.error e →
      (connectDb outcome st).ret = Except.error e ∧
      (connectDb outcome st).st.promise = none) := by
  obtain ⟨conn, promise⟩ := st
  constructor
  · cases conn <;> cases promise <;> simp [connectDb]
    cases outcome _ <;> simp
  · intro p e hconn hprom hout
    cases conn with
    | some c => cases hconn
    | none =>
      cases promise with
      | none => cases hprom
      | some q =>
        obtain rfl : q = p := by injection hprom
        simp [connectDb, hout]

/-- Witness for C4 at a concrete cache state whose awaited promise rejects. -/
theorem connectDb_at_most_one_attempt_witness :
    (connectDb failOutcome ⟨none, some ()⟩).connectsInitiated ≤ 1 ∧
    (connectDb failOutcome ⟨none, some ()⟩).ret = Except.error () ∧
    (connectDb failOutcome ⟨none, some ()⟩).st.promise = none :=
  ⟨(connectDb_at_most_one_attempt failOutcome ⟨none, some ()⟩).1,
   ((connectDb_at_most_one_attempt failOutcome ⟨none, some ()⟩).2 () () rfl rfl rfl).1,
   ((connectDb_at_most_one_attempt failOutcome ⟨none, some ()⟩).2 () () rfl rfl rfl).2⟩

/-! ### `src/app/api/auth/register/route.ts`

The users collection is a list of records; `User.findOne({ email })` is a
scan for a record with that email; `User.create` appends a record.  The
JSON body is either well-formed with two string fields (missing fields
read as the empty string, which is falsy in JavaScript, like `!email`) or
malformed, in which case `request.json()` throws.  `connectOk`/`createOk`
say whether `connectDb()` resp. `User.create` throw; any throw lands in
the route's `catch` block. -/

structure UserRec where
  email : String
  password : String
deriving DecidableEq

inductive RegRequest where
  | malformed
  | valid (email password : String)

structure RegResponse where
  status : Nat
  error : Option String
  message : Option String
deriving DecidableEq

/-- The handler `POST` from `src/app/api/auth/register/route.ts`, lines 6-45, returning
the HTTP response together with the users collection after the call. -/
def registerPOST (req : RegRequest) (connectOk createOk : Bool)
    (db : List UserRec) : RegResponse × List UserRec :=
  match req with
  | RegRequest.malformed =>
    (⟨400, some "Failed to register user", none⟩, db)
  | RegRequest.valid email password =>
    if email = "" ∨ password = "" then
      (⟨400, some "Email and passowrd are required", none⟩, db)
    else if connectOk = false then
      (⟨400, some "Failed to register user", none⟩, db)
    else if db.any (fun u => u.email == email) then
      (⟨400, some "User already registered", none⟩, db)
    else if createOk = false then
      (⟨400, some "Failed to register user", none⟩, db)
    else
      (⟨201, none, some "User  registered successfully"⟩,
       db ++ [⟨email, password⟩])

/-- C2: with a non-empty email and password, if a user with that email
already exists the route inserts nothing (whatever `connectDb` or
`User.create` do), and on the reachable path responds 400 with
"User already registered"; moreover an insertion ever happens only for a
well-formed body whose email the uniqueness scan did not find. -/
theorem registerPOST_duplicate_email (e p : String) (db : List UserRec)
    (crOk : Bool) (he : e ≠ "") (hp : p ≠ "")
    (hdup : db.any (fun u => u.email == e) = true) :
    (∀ cOk, (registerPOST (RegRequest.valid e p) cOk crOk db).2 = db) ∧
    registerPOST (RegRequest.valid e p) true crOk db =
      (⟨400, some "User already registered", none⟩, db) ∧
    (∀ req cOk crOk2 (db2 : List UserRec),
      (registerPOST req cOk crOk2 db2).2 ≠ db2 →
      ∃ e2 p2, req = RegRequest.valid e2 p2 ∧
        db2.any (fun u => u.email == e2) = false) := by
  refine ⟨?_, ?_, ?_⟩
  · intro cOk
    simp only [registerPOST]
    split_ifs <;> simp_all
  · simp only [registerPOST]
    split_ifs <;> simp_all
  · intro req cOk crOk2 db2 hne
    cases req with
    | malformed => simp [registerPOST] at hne
    | valid e2 p2 =>
      refine ⟨e2, p2, rfl, ?_⟩
      by_contra hdup2
      simp only [registerPOST] at hne
      rw [Bool.not_eq_false] at hdup2
      split_ifs at hne <;> simp_all

/-- Witness for C2 on a one-user collection already holding the email. -/
theorem registerPOST_duplicate_email_witness :
    (registerPOST (RegRequest.valid "a@b.c" "pw12345!") false true
        [⟨"a@b.c", "old"⟩]).2 = [⟨"a@b.c", "old"⟩] ∧
    registerPOST (RegRequest.valid "a@b.c" "pw12345!") true true
        [⟨"a@b.c", "old"⟩] =
      (⟨400, some "User already registered", none⟩, [⟨"a@b.c", "old"⟩]) :=
  ⟨(registerPOST_duplicate_email "a@b.c" "pw12345!" [⟨"a@b.c", "old"⟩] true
      (by decide) (by decide) (by decide)).1 false,
   (registerPOST_duplicate_email "a@b.c" "pw12345!" [⟨"a@b.c", "old"⟩] true
      (by decide) (by decide) (by decide)).2.1⟩

/-- C3: with a non-empty email and password and no existing record for the
email, the route appends exactly one record with that email and password
and responds 201. -/
theorem registerPOST_inserts_new_user (e p : String) (db : List UserRec)
    (he : e ≠ "") (hp : p ≠ "")
    (hnew : db.any (fun u => u.email == e) = false) :
    registerPOST (RegRequest.valid e p) true true db =
      (⟨201, none, some "User  registered successfully"⟩, db ++ [⟨e, p⟩]) := by
  simp only [registerPOST]
  split_ifs <;> simp_all

/-- Witness for C3 on an empty users collection. -/
theorem registerPOST_inserts_new_user_witness :
    registerPOST (RegRequest.valid "a@b.c" "pw12345!") true true [] =
      (⟨201, none, some "User  registered successfully"⟩,
       [⟨"a@b.c", "pw12345!"⟩]) :=
  registerPOST_inserts_new_user "a@b.c" "pw12345!" []
    (by decide) (by decide) (by decide)

/-- C8: every response of the register route has status 201 or 400 —
malformed bodies, missing fields, duplicates and thrown errors all map to
400, never to 409 or a 5xx status. -/
theorem registerPOST_status_201_or_400 (req : RegRequest)
    (cOk crOk : Bool) (db : List UserRec) :
    (registerPOST req cOk crOk db).1.status = 201 ∨
    (registerPOST req cOk crOk db).1.status = 400 := by
  cases req with
  | malformed => right; rfl
  | valid e p =>
    simp only [registerPOST]
    split_ifs <;> simp

/-! ### Client-side validation (`src/app/register/page.tsx`, `src/app/login/page.tsx`)

The email regular expression of both pages,
`/^[^\s@]+@[^\s@]+\.[^\s@]+$/`, matches a string exactly when it splits
as `a ++ "@" ++ b ++ "." ++ c` with `a`, `b`, `c` non-empty and free of
whitespace and `@` (`b` and `c` may contain further dots).  JavaScript's
`\s` is modelled by `Char.isWhitespace`. -/

def isAtomChar (c : Char) : Bool :=
  !c.isWhitespace && c != '@'

/-- JavaScript `String.prototype.trim()`: strip leading and trailing
whitespace. -/
def jsTrim (s : String) : String :=
  ⟨((s.toList.dropWhile Char.isWhitespace).reverse.dropWhile
      Char.isWhitespace).reverse⟩

/-- JavaScript `String.prototype.toLowerCase()` (character-wise). -/
def jsToLower (s : String) : String :=
  ⟨s.toList.map Char.toLower⟩

/-- The anchored test of `/^[^\s@]+@[^\s@]+\.[^\s@]+$/.test(value)`:
search for a position `i` of the `@` and a position `j` of the dot that
witness the three non-empty `[^\s@]+` segments. -/
def emailRegexTest (s : String) : Bool :=
  let l := s.toList
  let n := l.length
  (List.range n).any fun i =>
    (List.range n).any fun j =>
      decide (1 ≤ i) && decide (i + 2 ≤ j) && decide (j + 1 < n) &&
      (l.getD i ' ' == '@') && (l.getD j ' ' == '.') &&
      (l.take i).all isAtomChar &&
      ((l.drop (i + 1)).take (j - (i + 1))).all isAtomChar &&
      (l.drop (j + 1)).all isAtomChar

/-- Function `validateField` for `email` on the register page
(`src/app/register/page.tsx`, lines 121-126). -/
def registerValidateEmail (value : String) : Option String :=
  if jsTrim value = "" then some "Email is required"
  else if emailRegexTest value = false then
    some "Please enter a valid email address"
  else if value.length > 254 then some "Email is too long"
  else none

/-- C5: the register page accepts an email exactly when it is non-blank
after trimming, matches the email regular expression, and is at most 254
characters long. -/
theorem registerEmail_accept_iff (v : String) :
    registerValidateEmail v = none ↔
      (jsTrim v ≠ "" ∧ emailRegexTest v = true ∧ v.length ≤ 254) := by
  simp only [registerValidateEmail]
  split_ifs with h1 h2 h3 <;>
    simp_all [Bool.not_eq_false, Nat.not_lt, Nat.lt_iff_add_one_le]

/-- The character class of the register page's special-character check,
`[!@#$%^&*()_+\-=\[\]{};':"\\|,.<>\/?]`, in source order.  The brace,
quote, double-quote and backslash characters are written via their code
points (123, 125, 39, 34, 92). -/
def specialChars : List Char :=
  ['!', '@', '#', '$', '%', '^', '&', '*', '(', ')', '_', '+', '-', '=',
   '[', ']', Char.ofNat 123, Char.ofNat 125, ';', Char.ofNat 39, ':',
   Char.ofNat 34, Char.ofNat 92, '|', ',', '.', '<', '>', '/', '?']

/-- Function `validateField` for `password` on the register page
(`src/app/register/page.tsx`, lines 128-141).  `/(?=.*[a-z])/` holds of a
string exactly when some character lies in the class. -/
def registerValidatePassword (value : String) : Option String :=
  if value = "" then some "Password is required"
  else if value.length < 8 then
    some "Password must be at least 8 characters long"
  else if value.length > 128 then some "Password is too long"
  else if !(value.toList.any fun c => 'a' ≤ c && c ≤ 'z') then
    some "Password must contain at least one lowercase letter"
  else if !(value.toList.any fun c => 'A' ≤ c && c ≤ 'Z') then
    some "Password must contain at least one uppercase letter"
  else if !(value.toList.any fun c => '0' ≤ c && c ≤ '9') then
    some "Password must contain at least one number"
  else if !(value.toList.any fun c => specialChars.contains c) then
    some "Password must contain at least one special character"
  else none

/-- Function `validateField` for `confirmPassword` on the register page
(`src/app/register/page.tsx`, lines 143-146); `password` is the current
`formData.password`. -/
def registerValidateConfirm (password value : String) : Option String :=
  if value = "" then some "Please confirm your password"
  else if value ≠ password then some "Passwords do not match"
  else none

structure RegFormData where
  email : String
  password : String
  confirmPassword : String

/-- The handler `handleSubmit` of `src/app/register/page.tsx`, lines 197-257, reduced
to what it sends: `none` when `validateForm()` fails (no fetch is
issued), otherwise the `{ email, password }` body posted to
`/api/auth/register`, with the email trimmed and lowercased. -/
def registerHandleSubmit (fd : RegFormData) : Option (String × String) :=
  if (registerValidateEmail fd.email).isSome ||
     (registerValidatePassword fd.password).isSome ||
     (registerValidateConfirm fd.password fd.confirmPassword).isSome then
    none
  else
    some (jsToLower (jsTrim fd.email), fd.password)

/-- The handler `handleSubmit` of the plain register page (`src/unnamed/part_002`,
lines 11-36): it only aborts on a password mismatch, otherwise posts the
raw `{ email, password }`. -/
def simpleRegisterHandleSubmit (email password confirmPassword : String) :
    Option (String × String) :=
  if password ≠ confirmPassword then none
  else some (email, password)

/-- C9: whenever the password and confirm-password fields differ, neither
register implementation sends a request to `/api/auth/register`. -/
theorem register_mismatch_sends_nothing (fd : RegFormData)
    (e p cp : String) (h1 : fd.password ≠ fd.confirmPassword)
    (h2 : p ≠ cp) :
    registerHandleSubmit fd = none ∧
    simpleRegisterHandleSubmit e p cp = none := by
  constructor
  · have hc : (registerValidateConfirm fd.password fd.confirmPassword).isSome := by
      simp only [registerValidateConfirm]
      split_ifs with hempty hne
      · simp
      · simp
      · rw [not_ne_iff] at hne
        exact absurd hne.symm h1
    simp [registerHandleSubmit, hc]
  · simp [simpleRegisterHandleSubmit, h2]

/-- Witness for C9 at a concrete mismatched form. -/
theorem register_mismatch_sends_nothing_witness :
    registerHandleSubmit ⟨"a@b.c", "Password1!", "Password2!"⟩ = none ∧
    simpleRegisterHandleSubmit "e@f.g" "pw1" "pw2" = none :=
  register_mismatch_sends_nothing ⟨"a@b.c", "Password1!", "Password2!"⟩
    "e@f.g" "pw1" "pw2" (by decide) (by decide)

/-! ### Password strength (`src/app/register/page.tsx`, lines 88-115) -/

structure PasswordStrength where
  score : Nat
  label : String
  color : String
deriving DecidableEq

/-- The six-entry `strengthMap` lookup table. -/
def strengthMap : List (String × String) :=
  [("Very Weak", "bg-red-500"), ("Weak", "bg-orange-500"),
   ("Fair", "bg-yellow-500"), ("Good", "bg-blue-500"),
   ("Strong", "bg-green-500"), ("Very Strong", "bg-emerald-500")]

/-- Function `calculatePasswordStrength`: one point per criterion; the label and
color come from `strengthMap[score]`, falling back to
"Very Weak"/"bg-red-500" when the index is out of range
(`strengthMap[score]?.label || "Very Weak"`). -/
def calculatePasswordStrength (password : String) : PasswordStrength :=
  let score :=
    (if password.length ≥ 8 then 1 else 0) +
    (if password.length ≥ 12 then 1 else 0) +
    (if password.toList.any (fun c => 'a' ≤ c && c ≤ 'z') then 1 else 0) +
    (if password.toList.any (fun c => 'A' ≤ c && c ≤ 'Z') then 1 else 0) +
    (if password.toList.any (fun c => '0' ≤ c && c ≤ '9') then 1 else 0) +
    (if password.toList.any
        (fun c => !(('a' ≤ c && c ≤ 'z') || ('A' ≤ c && c ≤ 'Z') ||
                    ('0' ≤ c && c ≤ '9'))) then 1 else 0)
  { score := score
    label := ((strengthMap.get? score).map Prod.fst).getD "Very Weak"
    color := ((strengthMap.get? score).map Prod.snd).getD "bg-red-500" }

/-- C10: the strength score is always between 0 and 6, the label/color pair
is always defined (an entry of `strengthMap` or the fallback), and at
score 6 — all criteria met — the table has no entry, so the function falls
back to "Very Weak" with "bg-red-500". -/
theorem passwordStrength_bounds_and_fallback (p : String) :
    (calculatePasswordStrength p).score ≤ 6 ∧
    (((calculatePasswordStrength p).label,
      (calculatePasswordStrength p).color) ∈ strengthMap ∨
     ((calculatePasswordStrength p).label = "Very Weak" ∧
      (calculatePasswordStrength p).color = "bg-red-500")) ∧
    ((calculatePasswordStrength p).score = 6 →
     (calculatePasswordStrength p).label = "Very Weak" ∧
     (calculatePasswordStrength p).color = "bg-red-500") := by
  have hle : (calculatePasswordStrength p).score ≤ 6 := by
    simp only [calculatePasswordStrength]
    split_ifs <;> simp
  refine ⟨hle, ?_, ?_⟩
  · rcases Nat.lt_or_ge (calculatePasswordStrength p).score 6 with hlt | hge
    · left
      simp only [calculatePasswordStrength] at hlt ⊢
      interval_cases h : ((if p.length ≥ 8 then 1 else 0) +
          (if p.length ≥ 12 then 1 else 0) +
          (if p.toList.any (fun c => 'a' ≤ c && c ≤ 'z') then 1 else 0) +
          (if p.toList.any (fun c => 'A' ≤ c && c ≤ 'Z') then 1 else 0) +
          (if p.toList.any (fun c => '0' ≤ c && c ≤ '9') then 1 else 0) +
          (if p.toList.any
              (fun c => !(('a' ≤ c && c ≤ 'z') || ('A' ≤ c && c ≤ 'Z') ||
                          ('0' ≤ c && c ≤ '9'))) then 1 else 0)) <;>
        simp [h, strengthMap]
    · right
      have h6 : (calculatePasswordStrength p).score = 6 :=
        Nat.le_antisymm hle hge
      simp only [calculatePasswordStrength] at h6 ⊢
      rw [h6]
      constructor <;> rfl
  · intro h6
    simp only [calculatePasswordStrength] at h6 ⊢
    rw [h6]
    constructor <;> rfl

/-- Witness for C10 at a password meeting all six criteria. -/
theorem passwordStrength_fallback_witness :
    (calculatePasswordStrength "Abcdefghijk1!").score = 6 ∧
    (calculatePasswordStrength "Abcdefghijk1!").label = "Very Weak" ∧
    (calculatePasswordStrength "Abcdefghijk1!").color = "bg-red-500" :=
  ⟨by decide,
   (passwordStrength_bounds_and_fallback "Abcdefghijk1!").2.2 (by decide)⟩

/-! ### Login pages (`src/app/login/page.tsx` and `src/unnamed/part_000`) -/

/-- Function `validateField` for `email` on the login page
(`src/app/login/page.tsx`, lines 85-89): same trim and regex checks as
the register page, without the length limit. -/
def loginValidateEmail (value : String) : Option String :=
  if jsTrim value = "" then some "Email is required"
  else if emailRegexTest value = false then
    some "Please enter a valid email address"
  else none

/-- Function `validateField` for `password` on the login page
(`src/app/login/page.tsx`, lines 91-93). -/
def loginValidatePassword (value : String) : Option String :=
  if value = "" then some "Password is required"
  else if value.length < 6 then
    some "Password must be at least 6 characters"
  else none

/-- NextAuth `SignInResponse` as used by both login pages: an optional
error string and the `ok` flag. -/
structure SignInResult where
  error : Option String
  ok : Bool

/-- JavaScript truthiness of `result?.error`: present and non-empty. -/
def errTruthy : Option String → Bool
  | none => false
  | some s => s != ""

structure LoginForm where
  email : String
  password : String

/-- What one run of a login submit handler did: the credentials passed to
`signIn("credentials", …)` if it was invoked, and the route pushed on the
router if any. -/
structure LoginOutcome where
  signInCalled : Option (String × String)
  navigate : Option String
deriving DecidableEq

/-- The handler `handleSubmit` of `src/app/login/page.tsx`, lines 145-215.  If
`validateForm()` fails, no sign-in is attempted.  Otherwise
`signIn("credentials", { email: formData.email.trim().toLowerCase(),
password: formData.password, redirect: false })` is awaited; `res` is its
settled value (`none` models `undefined`).  `router.push("/")` happens
only in the `else if (result?.ok)` branch. -/
def loginHandleSubmit (form : LoginForm) (res : Option SignInResult) :
    LoginOutcome :=
  if (loginValidateEmail form.email).isSome ||
     (loginValidatePassword form.password).isSome then
    ⟨none, none⟩
  else
    let creds := (jsToLower (jsTrim form.email), form.password)
    match res with
    | some r =>
      if errTruthy r.error then ⟨some creds, none⟩
      else if r.ok then ⟨some creds, some "/"⟩
      else ⟨some creds, none⟩
    | none => ⟨some creds, none⟩

/-- The handler `handleSubmit` of the plain login page (`src/unnamed/part_000`, lines
11-23): no validation, the raw `email`/`password` state is passed to
`signIn`, and `router.push("/")` runs whenever `result?.error` is falsy —
even when `result` is `undefined` or `result.ok` is false. -/
def simpleLoginHandleSubmit (email password : String)
    (res : Option SignInResult) : LoginOutcome :=
  let creds := (email, password)
  match res with
  | some r =>
    if errTruthy r.error then ⟨some creds, none⟩
    else ⟨some creds, some "/"⟩
  | none => ⟨some creds, some "/"⟩

/-- C7 counterexample: in the `src/unnamed/part_000` login implementation,
submitting the entered email " A@B.c " passes it to the credentials
sign-in verbatim — not trimmed and lowercased — and a sign-in result with
no error but `ok = false` (not a success) still navigates to "/". -/
theorem simpleLogin_raw_email_navigates :
    (simpleLoginHandleSubmit " A@B.c " "secret1"
        (some ⟨none, false⟩)).signInCalled = some (" A@B.c ", "secret1") ∧
    jsToLower (jsTrim " A@B.c ") ≠ " A@B.c " ∧
    (simpleLoginHandleSubmit " A@B.c " "secret1"
        (some ⟨none, false⟩)).navigate = some "/" := by
  refine ⟨rfl, ?_, rfl⟩
  decide

/-- C7 amended: in `src/app/login/page.tsx`, every submission that passes
field validation invokes the credentials sign-in with exactly the entered
email trimmed and lowercased and the entered password, and navigates to
"/" exactly when the sign-in result is present, reports no (truthy)
error, and has `ok` set. -/
theorem loginSubmit_trimmed_and_nav_iff_success (form : LoginForm)
    (res : Option SignInResult)
    (he : loginValidateEmail form.email = none)
    (hp : loginValidatePassword form.password = none) :
    (loginHandleSubmit form res).signInCalled =
      some (jsToLower (jsTrim form.email), form.password) ∧
    ((loginHandleSubmit form res).navigate = some "/" ↔
      ∃ r, res = some r ∧ errTruthy r.error = false ∧ r.ok = true) := by
  simp only [loginHandleSubmit, he, hp, Option.isSome_none, Bool.or_self,
    Bool.false_eq_true, if_false]
  cases res with
  | none => simp
  | some r =>
    rcases hr : errTruthy r.error with _ | _
    · rcases hok : r.ok with _ | _ <;> simp_all
    · simp_all

/-- Witness for C7's amended theorem at a concrete valid form with a
successful sign-in result. -/
theorem loginSubmit_trimmed_witness :
    (loginHandleSubmit ⟨"A@B.c", "secret1"⟩
        (some ⟨none, true⟩)).signInCalled = some ("a@b.c", "secret1") ∧
    (loginHandleSubmit ⟨"A@B.c", "secret1"⟩
        (some ⟨none, true⟩)).navigate = some "/" := by
  have h := loginSubmit_trimmed_and_nav_iff_success ⟨"A@B.c", "secret1"⟩
    (some ⟨none, true⟩) (by decide) (by decide)
  exact ⟨h.1.trans (by decide), h.2.mpr ⟨⟨none, true⟩, rfl, rfl, rfl⟩⟩

/-! ### Upload-auth endpoint (`src/unnamed/part_001`)

`getUploadAuthParams` is the ImageKit library call; it is abstracted as a
function `sign` from the private and public keys to either the signed
parameters or a thrown error (`none`).  The JSON body the handler builds
is a field list. -/

structure UploadAuthParams where
  token : String
  expire : Nat
  signature : String

inductive UploadField where
  | params (p : UploadAuthParams)
  | str (s : String)

/-- The handler `GET` of `src/unnamed/part_001`, lines 3-20: on success the body is
`{ authentiationParameters, publicKey }` (the field name keeps the
source's spelling); on a thrown error the body is the fixed message with
status 500. -/
def uploadAuthGET (sign : String → String → Option UploadAuthParams)
    (priv pub : String) : Nat × List (String × UploadField) :=
  match sign priv pub with
  | some p =>
    (200, [("authentiationParameters", UploadField.params p),
           ("publicKey", UploadField.str pub)])
  | none =>
    (500, [("error", UploadField.str "Authentication for Image kit failed")])

/-- C6: no response of the upload-auth endpoint carries a `privateKey`
field; when the library call succeeds the body consists of exactly the
signed upload-auth parameters and the public key; and the response
depends on the private key only through the library's signed output — two
runs whose signed outputs agree produce identical responses, for every
pair of private-key values. -/
theorem uploadAuth_body_no_private_key
    (sign : String → String → Option UploadAuthParams)
    (priv pub : String) :
    (∀ kv ∈ (uploadAuthGET sign priv pub).2, kv.1 ≠ "privateKey") ∧
    (∀ p, sign priv pub = some p →
      (uploadAuthGET sign priv pub).2 =
        [("authentiationParameters", UploadField.params p),
         ("publicKey", UploadField.str pub)]) ∧
    (∀ priv2, sign priv pub = sign priv2 pub →
      uploadAuthGET sign priv pub = uploadAuthGET sign priv2 pub) := by
  refine ⟨?_, ?_, ?_⟩
  · intro kv hkv
    cases hs : sign priv pub <;> simp [uploadAuthGET, hs] at hkv <;>
      rcases hkv with h | h <;> simp_all
  · intro p hs
    simp [uploadAuthGET, hs]
  · intro priv2 hs
    simp only [uploadAuthGET, hs]

/-- Witness for C6 with a concrete signing function and keys. -/
theorem uploadAuth_body_witness :
    (uploadAuthGET (fun _ _ => some ⟨"tok", 9, "sig"⟩) "PRIVKEY" "PUBKEY").2 =
      [("authentiationParameters", UploadField.params ⟨"tok", 9, "sig"⟩),
       ("publicKey", UploadField.str "PUBKEY")] ∧
    uploadAuthGET (fun _ _ => some ⟨"tok", 9, "sig"⟩) "PRIVKEY" "PUBKEY" =
      uploadAuthGET (fun _ _ => some ⟨"tok", 9, "sig"⟩) "OTHERKEY" "PUBKEY" :=
  ⟨(uploadAuth_body_no_private_key (fun _ _ => some ⟨"tok", 9, "sig"⟩)
      "PRIVKEY" "PUBKEY").2.1 ⟨"tok", 9, "sig"⟩ rfl,
   (uploadAuth_body_no_private_key (fun _ _ => some ⟨"tok", 9, "sig"⟩)
      "PRIVKEY" "PUBKEY").2.2 "OTHERKEY" rfl⟩

end VideoUpload
